import Mathlib

/-
Verification of the RunPod CLI (src/runpod-cli.py) against its
natural-language specification.

The program text is shallowly embedded: Python strings become `List Char`
(so that Python's substring test `a in b` becomes `List.IsInfix`),
optional JSON fields become `Option`, the filesystem state touched by
`setup_ssh_access` becomes an explicit record threaded through a pure
function, and the two external tools (`ssh-keygen -R`, `ssh-keyscan`) are
modelled from the spec as noted on their definitions.  Python exceptions
are modelled by an explicit fault-injection record and an `Except` result:
a `.error` result is an exception escaping `setup_ssh_access`, an `.ok`
result is a normal return (whose `ok` field is the Python return value).
-/

namespace RunpodCLI

/-- File contents and Python strings are modelled as lists of characters. -/
abbrev Str := List Char

/-- Embed a Lean string literal as a character list. -/
def lit (s : String) : Str := s.toList

/-- Python's substring test `needle in haystack` (decidable, as a Bool). -/
def substr (needle haystack : Str) : Bool := decide (needle <:+: haystack)

/-- Python whitespace characters, as removed by `str.strip()`:
space, tab, newline, carriage return, vertical tab, form feed. -/
def pySpace (c : Char) : Bool :=
  c == ' ' || c == '\t' || c == '\n' || c == '\r' ||
  c == Char.ofNat 11 || c == Char.ofNat 12

/-- Python `str.strip()`: drop whitespace from both ends. -/
def pyStrip (s : Str) : Str :=
  ((s.dropWhile pySpace).reverse.dropWhile pySpace).reverse

/-- Worker for `pyReplace`; the fuel is an upper bound on the number of
characters consumed, and `s.length` suffices for a non-empty pattern. -/
def replaceFuel (old new : Str) : Nat → Str → Str
  | 0, s => s
  | _ + 1, [] => []
  | fuel + 1, c :: rest =>
    if old.isPrefixOf (c :: rest) then
      new ++ replaceFuel old new fuel ((c :: rest).drop old.length)
    else
      c :: replaceFuel old new fuel rest

/-- Python `s.replace(old, new)`: replace every non-overlapping occurrence
of `old`, scanning left to right.  (All call sites in the program pass a
non-empty `old`, for which this agrees with Python.) -/
def pyReplace (s old new : Str) : Str := replaceFuel old new s.length s

/-- Python `f-string` rendering of an integer port number. -/
def natStr (n : Nat) : Str := (Nat.repr n).toList

/-- The leading hostname field of a known-hosts line (up to the first space). -/
def firstField (l : Str) : Str := l.takeWhile (fun c => !(c == ' '))

/-- Modelled from the spec: the external `ssh-keygen -R name` invocation
(`src/runpod-cli.py` lines 103-106 runs it as a black-box subprocess; the
spec describes it as "key removal by host" that purges "known-hosts
entries for the bare host string and for the bracketed [host]:port
string").  It removes every line of the store whose leading hostname
field equals `name`. -/
def khRemove (name : Str) (kh : Str) : Str :=
  List.intercalate (lit "\n")
    (((kh).splitOn '\n').filter (fun l => !(firstField l == name)))

/-- The bracketed `[host]:port` form used for non-default SSH ports. -/
def brack (h : Str) (p : Nat) : Str :=
  lit "[" ++ h ++ lit "]:" ++ natStr p

/-! ## Data model (spec section 3, source lines 33-128)

A pod as returned by `runpod.get_pod`: only the fields the reconciler
reads are modelled.  `Option` captures both a missing JSON field and a
Python-falsy value where the code tests truthiness. -/

/-- One element of `runtime.ports`. -/
structure PortMap where
  privatePort : Option Nat
  ip : Option Str
  publicPort : Option Nat
deriving DecidableEq

/-- The `runtime` object of a running pod. -/
structure PodRuntime where
  ports : List PortMap
deriving DecidableEq

/-- A pod as seen by `setup_ssh_access` (field `runtime` absent or falsy
means the pod is not running). -/
structure Pod where
  runtime : Option PodRuntime
deriving DecidableEq

/-- The external world consumed by one run of `setup_ssh_access`:
the `runpod.get_pod` answer and the `ssh-keyscan` outcome
(exit code and captured stdout). -/
structure Env where
  pod : Option Pod
  scanRC : Int
  scanOut : Str
deriving DecidableEq

/-- The three files `setup_ssh_access` touches.  `none` means the file
does not exist; the known-hosts store is kept as plain content (the code
appends to it, creating it if absent, so absence and emptiness are not
distinguished). -/
structure FS where
  currentConf : Option Str
  sshConfig : Option Str
  knownHosts : Str
deriving DecidableEq

/-- The observable result of one run: the Python return value, the final
file states, the lines printed, and the log of files opened for writing
(in order: the three `open(..., 'w'/'a')` calls of the source). -/
structure Outcome where
  ok : Bool
  fs : FS
  out : List Str
  writes : List Str
deriving DecidableEq

/-- Fault injection for exception modelling: each flag makes the
corresponding operation raise.  `makedirs` covers the two `os.makedirs`
calls (source lines 41-42, outside the `try`), `getPod` the
`runpod.get_pod` API call, `writeCurrent` the `current.conf` write, and
`scan` the first external-tool invocation (all inside the `try`). -/
structure Faults where
  makedirs : Bool
  getPod : Bool
  writeCurrent : Bool
  scan : Bool
deriving DecidableEq

/-- No operation raises. -/
def noFaults : Faults := ⟨false, false, false, false⟩

/-! ## The SSH reconciler, `setup_ssh_access` (source lines 33-128) -/

/-- Source lines 60-64: scan `runtime.ports` for the first entry whose
`privatePort` equals 22 and take its `ip` and `publicPort`. -/
def findSshPort (ports : List PortMap) : Option Str × Option Nat :=
  match ports.find? (fun port => port.privatePort == some 22) with
  | some port => (port.ip, port.publicPort)
  | none => (none, none)

/-- Python truthiness of an optional string (`not ssh_host`). -/
def truthyStr : Option Str → Bool
  | none => false
  | some s => !s.isEmpty

/-- Python truthiness of an optional number (`not ssh_port`). -/
def truthyNat : Option Nat → Bool
  | none => false
  | some n => !(n == 0)

/-- Source line 77: `include_line`, with `rd` the runpod.d directory path. -/
def includeLine (rd : Str) : Str := lit "Include " ++ rd ++ lit "/*.conf\n"

/-- Source line 78: `host_block`. -/
def hostBlock : Str :=
  lit "\nHost runpod\n  User root\n  StrictHostKeyChecking no\n  UserKnownHostsFile /dev/null\n"

/-- Source lines 71-73: the content written to `current.conf`. -/
def currentConfContent (h : Str) (p : Nat) : Str :=
  lit "HostName " ++ h ++ lit "\n" ++ lit "Port " ++ natStr p ++ lit "\n"

/-- Source lines 80-85: `config_needs_update` — true unless the existing
main configuration contains both `include_line.strip()` and the literal
`"Host runpod"` as substrings. -/
def configNeedsUpdate (rd : Str) (file : Option Str) : Bool :=
  match file with
  | some content =>
      !(substr (pyStrip (includeLine rd)) content && substr (lit "Host runpod") content)
  | none => true

/-- Source lines 93-100: content written when the main configuration is
rewritten — the include line first when absent, then the pre-existing
content, then the alias block when absent. -/
def writeSshConfig (rd : Str) (existing : Str) : Str :=
  (if substr (pyStrip (includeLine rd)) existing then [] else includeLine rd)
    ++ existing
    ++ (if substr (lit "Host runpod") existing then [] else hostBlock)

/-- File state after steps 3-4 (source lines 71-100): `current.conf`
overwritten, main configuration rewritten only when needed. -/
def fsAfterConf (rd : Str) (fs : FS) (h : Str) (p : Nat) : FS :=
  { currentConf := some (currentConfContent h p),
    sshConfig :=
      if configNeedsUpdate rd fs.sshConfig then
        some (writeSshConfig rd (fs.sshConfig.getD []))
      else fs.sshConfig,
    knownHosts := fs.knownHosts }

/-- Write log after steps 3-4. -/
def writesAfterConf (rd : Str) (fs : FS) : List Str :=
  if configNeedsUpdate rd fs.sshConfig then
    [lit "current.conf", lit "config"]
  else
    [lit "current.conf"]

/-- Source line 113: the key-scan succeeded (`returncode == 0 and stdout`). -/
def scanOK (env : Env) : Bool := env.scanRC == 0 && !env.scanOut.isEmpty

/-- Messages printed on the success path (source lines 120-123). -/
def msgUpdated (rd : Str) : Str := lit "Updated " ++ rd ++ lit "/current.conf"

/-- Source line 121. -/
def msgRefreshed (h : Str) (p : Nat) : Str :=
  lit "Refreshed host key for [" ++ h ++ lit "]:" ++ natStr p

/-- Source line 123. -/
def msgConnect : Str := lit "You can now connect with: ssh runpod"

/-- The outcome of the steps 3-6 tail of `setup_ssh_access` once the
endpoint `(h, p)` has been resolved (source lines 70-124): write the
connection file, reconcile the main configuration, purge the known-hosts
entries for the new endpoint, and append the scanned keys (rewritten to
the bracketed form) when the scan succeeded. -/
def successOutcome (rd : Str) (env : Env) (fs : FS) (h : Str) (p : Nat) : Outcome :=
  let fs2 := fsAfterConf rd fs h p
  let kh1 := khRemove (brack h p) (khRemove h fs2.knownHosts)
  if scanOK env then
    { ok := true,
      fs := { fs2 with
        knownHosts := kh1 ++ pyReplace env.scanOut (h ++ lit " ") (brack h p ++ lit " ") },
      out := [msgUpdated rd, msgRefreshed h p, msgConnect],
      writes := writesAfterConf rd fs ++ [lit "known_hosts"] }
  else
    { ok := true,
      fs := { fs2 with knownHosts := kh1 },
      out := [msgConnect],
      writes := writesAfterConf rd fs }

/-- The `except` handler (source lines 126-128): the exception is caught,
reported with context, and the function returns `False`.  `fsNow` and
`wNow` are the file state and write log at the moment of the raise. -/
def caughtOutcome (fsNow : FS) (wNow : List Str) (e : Str) : Outcome :=
  { ok := false, fs := fsNow, out := [lit "Error setting up SSH: " ++ e], writes := wNow }

/-- Exception message for a failing `os.makedirs` (modelled). -/
def errMakedirs : Str := lit "OSError on makedirs"

/-- Exception message for a failing `runpod.get_pod` call (modelled). -/
def errApi : Str := lit "API failure"

/-- Exception message for a failing `current.conf` write (modelled). -/
def errWrite : Str := lit "IOError on current.conf"

/-- Exception message for a failing subprocess spawn (modelled). -/
def errScan : Str := lit "FileNotFoundError on ssh-keygen"

/-- `setup_ssh_access` (source lines 33-128).  `rd` is the expanded
`~/.ssh/runpod.d` path, `podId` the argument, `env` the external world,
`fs` the initial file state.  A `.error` result is an exception escaping
the function (only possible from the `os.makedirs` calls of lines 41-42,
which sit outside the `try` of lines 44-128); `.ok` is a normal return. -/
def setup_ssh_access (rd : Str) (fl : Faults) (podId : Str) (env : Env) (fs : FS) :
    Except Str Outcome :=
  if fl.makedirs then Except.error errMakedirs
  else if fl.getPod then Except.ok (caughtOutcome fs [] errApi)
  else
    match env.pod with
    | none => Except.ok ⟨false, fs, [lit "Pod " ++ podId ++ lit " not found"], []⟩
    | some pod =>
      match pod.runtime with
      | none => Except.ok ⟨false, fs, [lit "Pod is not running yet"], []⟩
      | some rt =>
        match findSshPort rt.ports with
        | (hostOpt, portOpt) =>
          if truthyStr hostOpt && truthyNat portOpt then
            let h := hostOpt.getD []
            let p := portOpt.getD 0
            if fl.writeCurrent then Except.ok (caughtOutcome fs [] errWrite)
            else if fl.scan then
              Except.ok (caughtOutcome (fsAfterConf rd fs h p) (writesAfterConf rd fs) errScan)
            else Except.ok (successOutcome rd env fs h p)
          else
            Except.ok ⟨false, fs, [lit "SSH port not found"], []⟩

/-- Normal-return projection: the outcome of a run known not to raise
(`fb` is a fallback never used on such runs). -/
def outcomeOf (r : Except Str Outcome) (fb : FS) : Outcome :=
  match r with
  | Except.ok o => o
  | Except.error e => ⟨false, fb, [e], []⟩

/-- Whether a run returned normally (no exception escaped). -/
def isOkE (r : Except Str Outcome) : Bool :=
  match r with
  | Except.ok _ => true
  | Except.error _ => false

/-! ## `cmd_down` target resolution (source lines 354-387)

Only the branch taking an explicit pod-id-or-name argument is modelled,
up to the point where `runpod.terminate_pod` is (or is not) called; the
subsequent verification polling is modelled separately below. -/

/-- A pod record as listed by `runpod.get_pods` (the fields `cmd_down`
reads). -/
structure PodRec where
  id : Str
  name : Str
deriving DecidableEq

/-- The external world consumed by `cmd_down`'s resolution: the
`runpod.get_pod(target)` answer and the `runpod.get_pods()` listing. -/
structure DownEnv where
  direct : Option PodRec
  pods : List PodRec
deriving DecidableEq

/-- The observable result of the resolution: the `sys.exit` code if any
(`none` means execution continued past resolution), the pod ids passed to
`runpod.terminate_pod`, and the lines printed. -/
structure DownOutcome where
  exitCode : Option Nat
  terminated : List Str
  out : List Str
deriving DecidableEq

/-- An ASCII apostrophe (the quotes of the Python message). -/
def quoteChar : Str := [Char.ofNat 39]

/-- Source line 370: pods whose name equals the target or whose id starts
with the target. -/
def matchingPods (target : Str) (pods : List PodRec) : List PodRec :=
  pods.filter (fun p => p.name == target || target.isPrefixOf p.id)

/-- Source lines 376-378. -/
def msgMultiple (target : Str) : Str :=
  lit "Multiple pods match " ++ quoteChar ++ target ++ quoteChar ++ lit ":"

/-- Source line 378: one candidate line per matching pod. -/
def msgCandidate (p : PodRec) : Str := lit "  " ++ p.id ++ lit " - " ++ p.name

/-- Source line 386. -/
def msgTerminating (p : PodRec) : Str :=
  lit "Terminating pod " ++ p.name ++ lit " (" ++ p.id ++ lit ")..."

/-- `cmd_down`'s explicit-target branch (source lines 360-387): try the
target as a direct pod id; otherwise search by name or id-prefix, fail
with exit 1 when nothing or more than one pod matches, and call
`runpod.terminate_pod` exactly on the uniquely resolved pod. -/
def cmd_down_target (target : Str) (env : DownEnv) : DownOutcome :=
  match env.direct with
  | some pod => ⟨none, [pod.id], [msgTerminating pod]⟩
  | none =>
    let ms := matchingPods target env.pods
    match ms with
    | [] => ⟨some 1, [], [lit "No pod found matching: " ++ target]⟩
    | [p] => ⟨none, [p.id], [msgTerminating p]⟩
    | _ :: _ :: _ =>
      ⟨some 1, [],
        msgMultiple target :: ms.map msgCandidate ++ [lit "\nPlease be more specific"]⟩

/-! ## The post-create / post-terminate polling loop
(spec section 4.2; source lines 234-256 and 390-411)

The Python loop is `while elapsed < max_wait: sleep(interval);
elapsed += interval; if ready: break` with a `while ... else` arm on
timeout.  `check e` abstracts the `runpod.get_pod` status probe made at
elapsed time `e` (runtime present for create, pod absent for terminate).
Time is in fixed units: seconds for the create loop (`max_wait = 300`,
`interval = 2`), half-seconds for the terminate loop (`max_wait = 30 s =
60` units, `interval = 0.5 s = 1` unit) — the Python float arithmetic on
multiples of 0.5 is exact, so the scaled natural-number model is
faithful. -/

/-- Result of a polling loop: whether the target condition was reached,
how many status checks were made, and the final elapsed time. -/
structure PollRes where
  reached : Bool
  checks : Nat
  elapsed : Nat
deriving DecidableEq

/-- The polling loop.  The fuel (an iteration bound) never runs out for
the fuels used below, since each iteration advances `elapsed` by
`intv ≥ 1`. -/
def pollLoop (check : Nat → Bool) (maxW intv : Nat) : Nat → Nat → PollRes
  | 0, e => ⟨false, 0, e⟩
  | fuel + 1, e =>
    if maxW ≤ e then ⟨false, 0, e⟩
    else
      if check (e + intv) then ⟨true, 1, e + intv⟩
      else
        let r := pollLoop check maxW intv fuel (e + intv)
        ⟨r.reached, r.checks + 1, r.elapsed⟩

/-- The create-side wait (source lines 234-256): 300 s at 2 s intervals. -/
def upPoll (check : Nat → Bool) : PollRes := pollLoop check 300 2 300 0

/-- The terminate-side wait (source lines 390-411): 30 s at 0.5 s
intervals, in half-second units. -/
def downPoll (check : Nat → Bool) : PollRes := pollLoop check 60 1 60 0

/-- What `cmd_up` does after the wait (source lines 245-256): on success
print the ready banner and continue; on timeout print the banner and
"Pod may still be starting" and `return` — no failing `sys.exit`.
(The progress-bar redraw lines are not modelled.) -/
def cmd_up_wait (check : Nat → Bool) : DownOutcome :=
  if (upPoll check).reached then ⟨none, [], [lit "Ready!"]⟩
  else ⟨none, [], [lit "Timeout", lit "Pod may still be starting"]⟩

/-- What `cmd_down` does after the wait (source lines 401-411): on
success print the confirmation; on timeout print "Pod may still be
terminating" and fall through to the config cleanup — no failing
`sys.exit`. -/
def cmd_down_wait (check : Nat → Bool) : DownOutcome :=
  if (downPoll check).reached then ⟨none, [], [lit "Confirmed!"]⟩
  else ⟨none, [], [lit "Timeout", lit "Pod may still be terminating"]⟩

/-! ## Helper lemmas -/

theorem substr_iff {n h : Str} : substr n h = true ↔ n <:+: h := by
  simp [substr]

/-- Stripping whitespace yields a contiguous piece of the original. -/
theorem pyStrip_infix_self (s : Str) : pyStrip s <:+: s := by
  unfold pyStrip
  refine List.infix_iff_prefix_suffix.mpr
    ⟨s.dropWhile pySpace, ?_, List.dropWhile_suffix _⟩
  have h1 : ((s.dropWhile pySpace).reverse.dropWhile pySpace) <:+
      (s.dropWhile pySpace).reverse := List.dropWhile_suffix _
  simpa using List.reverse_prefix.mpr h1

/-- A substring survives surrounding material. -/
theorem substr_extend {n e : Str} (pre post : Str) (h : n <:+: e) :
    n <:+: pre ++ e ++ post := by
  obtain ⟨s, t, rfl⟩ := h
  exact ⟨pre ++ s, t ++ post, by simp⟩

/-- After a rewrite of the main configuration both detection needles are
present, whatever the prior content was. -/
theorem write_contains_needles (rd e : Str) :
    pyStrip (includeLine rd) <:+: writeSshConfig rd e ∧
      lit "Host runpod" <:+: writeSshConfig rd e := by
  constructor
  · unfold writeSshConfig
    by_cases hc : substr (pyStrip (includeLine rd)) e = true
    · rw [if_pos hc]
      simpa using substr_extend [] _ (substr_iff.mp hc)
    · rw [if_neg hc]
      have h1 := substr_extend []
        (e ++ (if substr (lit "Host runpod") e then [] else hostBlock))
        (pyStrip_infix_self (includeLine rd))
      simpa [List.append_assoc] using h1
  · unfold writeSshConfig
    by_cases hb : substr (lit "Host runpod") e = true
    · rw [if_pos hb]
      simpa using substr_extend _ [] (substr_iff.mp hb)
    · rw [if_neg hb]
      have h0 : lit "Host runpod" <:+: hostBlock := by decide
      have h1 := substr_extend
        ((if substr (pyStrip (includeLine rd)) e then [] else includeLine rd) ++ e)
        [] h0
      simpa [List.append_assoc] using h1

/-- A freshly rewritten main configuration never needs another update. -/
theorem needsUpdate_after_write (rd e : Str) :
    configNeedsUpdate rd (some (writeSshConfig rd e)) = false := by
  obtain ⟨h1, h2⟩ := write_contains_needles rd e
  simp [configNeedsUpdate, substr, h1, h2]

/-- Symbolic execution of `setup_ssh_access` on the fault-free success
path: when the pod resolves to a running pod whose first private-port-22
mapping carries a truthy host `h` and port `p`, the run returns normally
with the outcome described by `successOutcome`. -/
theorem setup_spec (rd podId : Str) (env : Env) (fs : FS) (pod : Pod)
    (rt : PodRuntime) (h : Str) (p : Nat)
    (hpod : env.pod = some pod) (hrt : pod.runtime = some rt)
    (hfind : findSshPort rt.ports = (some h, some p))
    (hh : h ≠ []) (hp : p ≠ 0) :
    setup_ssh_access rd noFaults podId env fs =
      Except.ok (successOutcome rd env fs h p) := by
  have hhe : h.isEmpty = false := by
    cases h with
    | nil => exact absurd rfl hh
    | cons c cs => rfl
  have hpe : (p == 0) = false := by simpa using hp
  simp [setup_ssh_access, noFaults, hpod, hrt, hfind, truthyStr, truthyNat, hhe, hpe]

theorem successOutcome_ok (rd : Str) (env : Env) (fs : FS) (h : Str) (p : Nat) :
    (successOutcome rd env fs h p).ok = true := by
  unfold successOutcome
  by_cases hs : scanOK env = true <;> simp [hs]

theorem successOutcome_currentConf (rd : Str) (env : Env) (fs : FS) (h : Str) (p : Nat) :
    (successOutcome rd env fs h p).fs.currentConf = some (currentConfContent h p) := by
  unfold successOutcome fsAfterConf
  by_cases hs : scanOK env = true <;> simp [hs]

theorem successOutcome_sshConfig (rd : Str) (env : Env) (fs : FS) (h : Str) (p : Nat) :
    (successOutcome rd env fs h p).fs.sshConfig =
      (if configNeedsUpdate rd fs.sshConfig then
        some (writeSshConfig rd (fs.sshConfig.getD []))
      else fs.sshConfig) := by
  unfold successOutcome fsAfterConf
  by_cases hs : scanOK env = true <;> simp [hs]

theorem successOutcome_knownHosts (rd : Str) (env : Env) (fs : FS) (h : Str) (p : Nat) :
    (successOutcome rd env fs h p).fs.knownHosts =
      (if scanOK env then
        khRemove (brack h p) (khRemove h fs.knownHosts)
          ++ pyReplace env.scanOut (h ++ lit " ") (brack h p ++ lit " ")
      else khRemove (brack h p) (khRemove h fs.knownHosts)) := by
  unfold successOutcome fsAfterConf
  by_cases hs : scanOK env = true <;> simp [hs]

theorem successOutcome_writes (rd : Str) (env : Env) (fs : FS) (h : Str) (p : Nat) :
    (successOutcome rd env fs h p).writes =
      writesAfterConf rd fs ++ (if scanOK env then [lit "known_hosts"] else []) := by
  unfold successOutcome
  by_cases hs : scanOK env = true <;> simp [hs]

theorem successOutcome_out (rd : Str) (env : Env) (fs : FS) (h : Str) (p : Nat) :
    (successOutcome rd env fs h p).out =
      (if scanOK env then [msgUpdated rd, msgRefreshed h p, msgConnect]
      else [msgConnect]) := by
  unfold successOutcome
  by_cases hs : scanOK env = true <;> simp [hs]

/-- A configuration containing both needles never needs an update. -/
theorem needsUpdate_false_of_contains (rd : Str) {c : Str}
    (hinc : pyStrip (includeLine rd) <:+: c) (hhb : lit "Host runpod" <:+: c) :
    configNeedsUpdate rd (some c) = false := by
  simp [configNeedsUpdate, substr, hinc, hhb]

/-- When no update is needed, the prior file exists and contains both
needles. -/
theorem contains_of_needsUpdate_false (rd : Str) (file : Option Str)
    (hn : configNeedsUpdate rd file = false) :
    ∃ c, file = some c ∧ pyStrip (includeLine rd) <:+: c ∧
      lit "Host runpod" <:+: c := by
  cases file with
  | none => simp [configNeedsUpdate] at hn
  | some c =>
    have hn2 : pyStrip (includeLine rd) <:+: c ∧ lit "Host runpod" <:+: c := by
      simpa [configNeedsUpdate, substr, Bool.not_eq_false, Bool.and_eq_true,
        decide_eq_true_eq] using hn
    exact ⟨c, rfl, hn2.1, hn2.2⟩

/-- `lit "config"` is not among the write-log entries of a run that did
not rewrite the main configuration. -/
theorem config_not_written (rd : Str) (env : Env) (fs : FS) (h : Str) (p : Nat)
    (hn : configNeedsUpdate rd fs.sshConfig = false) :
    lit "config" ∉ (successOutcome rd env fs h p).writes := by
  rw [successOutcome_writes]
  unfold writesAfterConf
  rw [hn]
  by_cases hs : scanOK env = true <;> simp [hs] <;> decide

/-- When the first private-port-22 mapping is untruthy (or absent), the
resolution condition of source line 66 is false. -/
theorem findSshPort_not_truthy (rt : PodRuntime)
    (hno : ∀ pm ∈ rt.ports, pm.privatePort = some 22 →
      (truthyStr pm.ip && truthyNat pm.publicPort) = false) :
    (truthyStr (findSshPort rt.ports).1 && truthyNat (findSshPort rt.ports).2) = false := by
  unfold findSshPort
  cases hf : rt.ports.find? (fun port => port.privatePort == some 22) with
  | none => rfl
  | some pm =>
    have hmem := List.mem_of_find?_eq_some hf
    have hcond : pm.privatePort = some 22 := by simpa using List.find?_some hf
    simpa using hno pm hmem hcond

/-! ## Claim theorems -/

/-- C1: when the main SSH configuration already contains the include
directive line and the host alias block, a run of `setup_ssh_access`
against a running pod does not write it (the file is unchanged and no
write to it is logged); and running the reconciler twice against the same
endpoint leaves the main SSH configuration byte-identical after the first
run, with no write on the second run. -/
theorem C1_config_idempotent (rd podId : Str) (env : Env) (fs : FS) (pod : Pod)
    (rt : PodRuntime) (h : Str) (p : Nat)
    (hpod : env.pod = some pod) (hrt : pod.runtime = some rt)
    (hfind : findSshPort rt.ports = (some h, some p)) (hh : h ≠ []) (hp : p ≠ 0) :
    (∀ c, fs.sshConfig = some c →
      pyStrip (includeLine rd) <:+: c → lit "Host runpod" <:+: c →
      ∀ o, setup_ssh_access rd noFaults podId env fs = Except.ok o →
        o.fs.sshConfig = some c ∧ lit "config" ∉ o.writes)
    ∧ (∀ o1 o2, setup_ssh_access rd noFaults podId env fs = Except.ok o1 →
        setup_ssh_access rd noFaults podId env o1.fs = Except.ok o2 →
        o2.fs.sshConfig = o1.fs.sshConfig ∧ lit "config" ∉ o2.writes) := by
  have hrun := setup_spec rd podId env fs pod rt h p hpod hrt hfind hh hp
  constructor
  · intro c hc hinc hhb o ho
    rw [hrun] at ho
    have ho2 : o = successOutcome rd env fs h p := by
      exact (Except.ok.injEq _ _).mp ho.symm
    subst ho2
    have hn : configNeedsUpdate rd fs.sshConfig = false := by
      rw [hc]; exact needsUpdate_false_of_contains rd hinc hhb
    refine ⟨?_, config_not_written rd env fs h p hn⟩
    rw [successOutcome_sshConfig, hn]
    simpa using hc
  · intro o1 o2 h1 h2
    rw [hrun] at h1
    have h1e : o1 = successOutcome rd env fs h p := by
      exact (Except.ok.injEq _ _).mp h1.symm
    subst h1e
    have hn1 : configNeedsUpdate rd
        (successOutcome rd env fs h p).fs.sshConfig = false := by
      rw [successOutcome_sshConfig]
      by_cases hn0 : configNeedsUpdate rd fs.sshConfig = true
      · rw [if_pos hn0]
        exact needsUpdate_after_write rd (fs.sshConfig.getD [])
      · rw [if_neg hn0]
        exact Bool.not_eq_true _ |>.mp hn0
    have hrun2 := setup_spec rd podId env (successOutcome rd env fs h p).fs
      pod rt h p hpod hrt hfind hh hp
    rw [hrun2] at h2
    have h2e : o2 = successOutcome rd env (successOutcome rd env fs h p).fs h p := by
      exact (Except.ok.injEq _ _).mp h2.symm
    subst h2e
    refine ⟨?_, config_not_written rd env _ h p hn1⟩
    rw [successOutcome_sshConfig, hn1]
    simp

/-- C2: whenever `setup_ssh_access` rewrites the main SSH configuration,
the resulting file is the include line (only if it was absent), followed
by all pre-existing content unchanged, followed by the alias block (only
if it was absent); in particular, when the include directive is written
it precedes all pre-existing content (it is a prefix of the new file). -/
theorem C2_include_first (rd podId : Str) (env : Env) (fs : FS) (pod : Pod)
    (rt : PodRuntime) (h : Str) (p : Nat)
    (hpod : env.pod = some pod) (hrt : pod.runtime = some rt)
    (hfind : findSshPort rt.ports = (some h, some p)) (hh : h ≠ []) (hp : p ≠ 0)
    (hup : configNeedsUpdate rd fs.sshConfig = true) :
    ∀ o, setup_ssh_access rd noFaults podId env fs = Except.ok o →
      o.fs.sshConfig = some
        ((if substr (pyStrip (includeLine rd)) (fs.sshConfig.getD []) then ([] : Str)
          else includeLine rd)
        ++ fs.sshConfig.getD []
        ++ (if substr (lit "Host runpod") (fs.sshConfig.getD []) then ([] : Str)
          else hostBlock))
      ∧ (substr (pyStrip (includeLine rd)) (fs.sshConfig.getD []) = false →
          ∀ c, o.fs.sshConfig = some c → includeLine rd <+: c) := by
  have hrun := setup_spec rd podId env fs pod rt h p hpod hrt hfind hh hp
  intro o ho
  rw [hrun] at ho
  have hoe : o = successOutcome rd env fs h p := by
    exact (Except.ok.injEq _ _).mp ho.symm
  subst hoe
  have hconf : (successOutcome rd env fs h p).fs.sshConfig =
      some (writeSshConfig rd (fs.sshConfig.getD [])) := by
    rw [successOutcome_sshConfig, if_pos hup]
  constructor
  · rw [hconf]; rfl
  · intro habs c hc
    rw [hconf] at hc
    have hce : c = writeSshConfig rd (fs.sshConfig.getD []) := by
      exact (Option.some.injEq _ _).mp hc.symm
    subst hce
    unfold writeSshConfig
    rw [if_neg (by simp [habs])]
    exact ⟨fs.sshConfig.getD [] ++
      (if substr (lit "Host runpod") (fs.sshConfig.getD []) then ([] : Str)
        else hostBlock),
      by simp [List.append_assoc]⟩

/-- C3: whenever the pod resolves (via the first private-port-22 mapping)
to host `h` and public port `p`, a normal run succeeds and leaves the
per-pod connection file containing exactly the two lines `HostName h` and
`Port p`, in that order, regardless of its prior content. -/
theorem C3_connection_file_overwrite (rd podId : Str) (env : Env) (fs : FS)
    (pod : Pod) (rt : PodRuntime) (h : Str) (p : Nat)
    (hpod : env.pod = some pod) (hrt : pod.runtime = some rt)
    (hfind : findSshPort rt.ports = (some h, some p)) (hh : h ≠ []) (hp : p ≠ 0) :
    ∀ o, setup_ssh_access rd noFaults podId env fs = Except.ok o →
      o.ok = true ∧
      o.fs.currentConf = some
        (lit "HostName " ++ h ++ lit "\n" ++ lit "Port " ++ natStr p ++ lit "\n") := by
  have hrun := setup_spec rd podId env fs pod rt h p hpod hrt hfind hh hp
  intro o ho
  rw [hrun] at ho
  have hoe : o = successOutcome rd env fs h p := by
    exact (Except.ok.injEq _ _).mp ho.symm
  subst hoe
  exact ⟨successOutcome_ok rd env fs h p, successOutcome_currentConf rd env fs h p⟩

/-- C10: presence of the alias block is detected by plain substring
containment, so for every prior configuration containing the text
`Host runpod` anywhere — for example only inside a host name like
`Host runpod-old` — the reconciler never appends the alias block: the
resulting configuration is exactly the (possibly prepended) include line
followed by the old content. -/
theorem C10_substring_detection (rd podId : Str) (env : Env) (fs : FS)
    (pod : Pod) (rt : PodRuntime) (h : Str) (p : Nat) (c : Str)
    (hpod : env.pod = some pod) (hrt : pod.runtime = some rt)
    (hfind : findSshPort rt.ports = (some h, some p)) (hh : h ≠ []) (hp : p ≠ 0)
    (hc : fs.sshConfig = some c) (hhb : lit "Host runpod" <:+: c) :
    ∀ o, setup_ssh_access rd noFaults podId env fs = Except.ok o →
      o.fs.sshConfig = some
        ((if substr (pyStrip (includeLine rd)) c then ([] : Str) else includeLine rd)
          ++ c) := by
  have hrun := setup_spec rd podId env fs pod rt h p hpod hrt hfind hh hp
  intro o ho
  rw [hrun] at ho
  have hoe : o = successOutcome rd env fs h p := by
    exact (Except.ok.injEq _ _).mp ho.symm
  subst hoe
  rw [successOutcome_sshConfig, hc]
  by_cases hinc : substr (pyStrip (includeLine rd)) c = true
  · have hn : configNeedsUpdate rd (some c) = false :=
      needsUpdate_false_of_contains rd (substr_iff.mp hinc) hhb
    rw [hn, if_pos hinc]
    simp
  · have habs : substr (pyStrip (includeLine rd)) c = false := by
      cases hv : substr (pyStrip (includeLine rd)) c
      · rfl
      · exact absurd hv hinc
    have hn : configNeedsUpdate rd (some c) = true := by
      simp [configNeedsUpdate, habs]
    rw [hn]
    simp only [Option.getD_some, if_true]
    unfold writeSshConfig
    rw [if_neg hinc, if_pos (by simpa [substr] using hhb)]
    simp

/-- C4: when the pod identifier does not resolve to a running pod with a
(truthy) private-port-22 mapping — pod absent, runtime absent, or no
usable port-22 mapping — the run returns failure with the corresponding
message and performs no file writes at all: the write log is empty and
every file is untouched. -/
theorem C4_no_side_effects_on_failure (rd podId : Str) (env : Env) (fs : FS) :
    ∀ o, setup_ssh_access rd noFaults podId env fs = Except.ok o →
      (env.pod = none →
        o.ok = false ∧ o.fs = fs ∧ o.writes = [] ∧
        o.out = [lit "Pod " ++ podId ++ lit " not found"])
      ∧ (∀ pod, env.pod = some pod → pod.runtime = none →
        o.ok = false ∧ o.fs = fs ∧ o.writes = [] ∧
        o.out = [lit "Pod is not running yet"])
      ∧ (∀ pod rt, env.pod = some pod → pod.runtime = some rt →
        (∀ pm ∈ rt.ports, pm.privatePort = some 22 →
          (truthyStr pm.ip && truthyNat pm.publicPort) = false) →
        o.ok = false ∧ o.fs = fs ∧ o.writes = [] ∧
        o.out = [lit "SSH port not found"]) := by
  intro o ho
  refine ⟨?_, ?_, ?_⟩
  · intro hnone
    simp only [setup_ssh_access, noFaults, hnone, Bool.false_eq_true, if_false] at ho
    injection ho with h
    rw [← h]
    exact ⟨rfl, rfl, rfl, rfl⟩
  · intro pod hpod hrt
    simp only [setup_ssh_access, noFaults, hpod, hrt, Bool.false_eq_true, if_false] at ho
    injection ho with h
    rw [← h]
    exact ⟨rfl, rfl, rfl, rfl⟩
  · intro pod rt hpod hrt hno
    have hcond := findSshPort_not_truthy rt hno
    obtain ⟨a, b, hab⟩ : ∃ a b, findSshPort rt.ports = (a, b) := ⟨_, _, rfl⟩
    rw [hab] at hcond
    simp at hcond
    simp only [setup_ssh_access, noFaults, hpod, hrt, hab, Bool.false_eq_true,
      if_false] at ho
    rw [if_neg (by simp; exact hcond)] at ho
    injection ho with h
    rw [← h]
    exact ⟨rfl, rfl, rfl, rfl⟩

/-! ## Concrete scenario used by the witnesses -/

/-- A concrete runpod.d path. -/
def rdW : Str := lit "RD"

/-- A concrete pod identifier. -/
def pidW : Str := lit "p1"

/-- A concrete port mapping exposing SSH at 1.2.3.4:40001. -/
def pmW : PortMap := ⟨some 22, some (lit "1.2.3.4"), some 40001⟩

/-- Its runtime. -/
def rtW : PodRuntime := ⟨[pmW]⟩

/-- A running pod with that single mapping. -/
def podW : Pod := ⟨some rtW⟩

/-- An environment where the scan succeeds. -/
def envW : Env := ⟨some podW, 0, lit "1.2.3.4 ssh-ed25519 AAA\n"⟩

/-- A main configuration already containing both needles. -/
def confBoth : Str := lit "Include RD/*.conf\n\nHost runpod\n  User root\n"

/-- File state whose main configuration already contains both needles. -/
def fsBoth : FS := ⟨none, some confBoth, lit ""⟩

theorem C1_config_idempotent_witness :
    fsBoth.sshConfig = some confBoth ∧
    (outcomeOf (setup_ssh_access rdW noFaults pidW envW fsBoth) fsBoth).fs.sshConfig
      = some confBoth ∧
    lit "config" ∉
      (outcomeOf (setup_ssh_access rdW noFaults pidW envW fsBoth) fsBoth).writes := by
  have happ := (C1_config_idempotent rdW pidW envW fsBoth podW rtW
    (lit "1.2.3.4") 40001 rfl rfl rfl (by decide) (by decide)).1 confBoth rfl
    (by decide) (by decide)
    (outcomeOf (setup_ssh_access rdW noFaults pidW envW fsBoth) fsBoth) rfl
  exact ⟨rfl, happ.1, happ.2⟩

/-- A main configuration containing neither needle. -/
def confPlain : Str := lit "Port 1\n"

/-- File state with that configuration. -/
def fsPlain : FS := ⟨none, some confPlain, lit ""⟩

theorem C2_include_first_witness :
    configNeedsUpdate rdW fsPlain.sshConfig = true ∧
    (outcomeOf (setup_ssh_access rdW noFaults pidW envW fsPlain) fsPlain).fs.sshConfig
      = some (includeLine rdW ++ confPlain ++ hostBlock) ∧
    includeLine rdW <+: (includeLine rdW ++ confPlain ++ hostBlock) := by
  have happ := C2_include_first rdW pidW envW fsPlain podW rtW
    (lit "1.2.3.4") 40001 rfl rfl rfl (by decide) (by decide) (by decide)
    (outcomeOf (setup_ssh_access rdW noFaults pidW envW fsPlain) fsPlain) rfl
  have hcc : (outcomeOf (setup_ssh_access rdW noFaults pidW envW fsPlain) fsPlain).fs.sshConfig
      = some (includeLine rdW ++ confPlain ++ hostBlock) := by
    rw [happ.1]; decide
  exact ⟨by decide, hcc, happ.2 (by decide) _ hcc⟩

/-- A connection file holding stale content before the run. -/
def fsStale : FS := ⟨some (lit "HostName old\nPort 9\nmore\n"), none, lit ""⟩

theorem C3_connection_file_overwrite_witness :
    findSshPort rtW.ports = (some (lit "1.2.3.4"), some 40001) ∧
    (outcomeOf (setup_ssh_access rdW noFaults pidW envW fsStale) fsStale).ok = true ∧
    (outcomeOf (setup_ssh_access rdW noFaults pidW envW fsStale) fsStale).fs.currentConf
      = some (lit "HostName 1.2.3.4\nPort 40001\n") := by
  have happ := C3_connection_file_overwrite rdW pidW envW fsStale podW rtW
    (lit "1.2.3.4") 40001 rfl rfl rfl (by decide) (by decide)
    (outcomeOf (setup_ssh_access rdW noFaults pidW envW fsStale) fsStale) rfl
  refine ⟨rfl, happ.1, ?_⟩
  rw [happ.2]; decide

theorem C4_no_side_effects_on_failure_witness :
    (⟨some ⟨none⟩, 0, lit ""⟩ : Env).pod = some ⟨none⟩ ∧
    ((outcomeOf (setup_ssh_access rdW noFaults pidW ⟨some ⟨none⟩, 0, lit ""⟩ fsStale)
        fsStale).ok = false ∧
      (outcomeOf (setup_ssh_access rdW noFaults pidW ⟨some ⟨none⟩, 0, lit ""⟩ fsStale)
        fsStale).fs = fsStale ∧
      (outcomeOf (setup_ssh_access rdW noFaults pidW ⟨some ⟨none⟩, 0, lit ""⟩ fsStale)
        fsStale).writes = [] ∧
      (outcomeOf (setup_ssh_access rdW noFaults pidW ⟨some ⟨none⟩, 0, lit ""⟩ fsStale)
        fsStale).out = [lit "Pod is not running yet"]) := by
  have happ := (C4_no_side_effects_on_failure rdW pidW ⟨some ⟨none⟩, 0, lit ""⟩ fsStale
    (outcomeOf (setup_ssh_access rdW noFaults pidW ⟨some ⟨none⟩, 0, lit ""⟩ fsStale)
      fsStale) rfl).2.1 ⟨none⟩ rfl rfl
  exact ⟨rfl, happ⟩

/-- A configuration where `Host runpod` occurs only inside another host
name. -/
def confOld : Str := lit "Host runpod-old\n  User u\n"

/-- File state with that configuration. -/
def fsOld : FS := ⟨none, some confOld, lit ""⟩

/-- First endpoint of the trust-store rotation scenario: pod at
(h1, 31), scan succeeding. -/
def envH1 : Env := ⟨some ⟨some ⟨[⟨some 22, some (lit "h1"), some 31⟩]⟩⟩, 0,
  lit "h1 ssh-ed25519 AAA\n"⟩

/-- Second endpoint of the trust-store rotation scenario: pod recreated
at (h2, 32), scan succeeding. -/
def envH2 : Env := ⟨some ⟨some ⟨[⟨some 22, some (lit "h2"), some 32⟩]⟩⟩, 0,
  lit "h2 ssh-ed25519 BBB\n"⟩

/-- Initially empty file state. -/
def fsEmpty : FS := ⟨none, none, lit ""⟩

/-- File state after reconciling at the first endpoint. -/
def fsRun1 : FS := (outcomeOf (setup_ssh_access rdW noFaults pidW envH1 fsEmpty) fsEmpty).fs

/-- Outcome of reconciling at the second endpoint afterwards. -/
def run2 : Outcome := outcomeOf (setup_ssh_access rdW noFaults pidW envH2 fsRun1) fsEmpty

/-- C5 counterexample: reconciling pod P from endpoint (h1, 31) to
(h2, 32), with both key-scans succeeding, leaves the `[h1]:31` entry of
the first run in the trust store — the claim that "no entries for h1 or
[h1]:p1 remain" is false.  The run purges only the new endpoint's
entries (`ssh-keygen -R h2` and `-R [h2]:32`), never the old one's. -/
theorem C5_trust_store_rotation_counterexample :
    run2.ok = true ∧ scanOK envH2 = true ∧
    fsRun1.knownHosts = lit "[h1]:31 ssh-ed25519 AAA\n" ∧
    run2.fs.knownHosts =
      lit "[h1]:31 ssh-ed25519 AAA\n[h2]:32 ssh-ed25519 BBB\n" ∧
    lit "[h1]:31 " <:+: run2.fs.knownHosts := by decide

/-- C5 (amended): a successful reconciliation at endpoint (h, p) with a
succeeding key-scan replaces the trust store by the prior store purged of
entries for the bare host `h` and for `[h]:p`, followed by the freshly
scanned keys rewritten from the `h ` prefix to the `[h]:p ` form.
Entries for any previous endpoint are not purged and may remain. -/
theorem C5_trust_store_rotation_amended (rd podId : Str) (env : Env) (fs : FS)
    (pod : Pod) (rt : PodRuntime) (h : Str) (p : Nat)
    (hpod : env.pod = some pod) (hrt : pod.runtime = some rt)
    (hfind : findSshPort rt.ports = (some h, some p)) (hh : h ≠ []) (hp : p ≠ 0)
    (hscan : scanOK env = true) :
    ∀ o, setup_ssh_access rd noFaults podId env fs = Except.ok o →
      o.ok = true ∧
      o.fs.knownHosts =
        khRemove (brack h p) (khRemove h fs.knownHosts)
          ++ pyReplace env.scanOut (h ++ lit " ") (brack h p ++ lit " ") := by
  have hrun := setup_spec rd podId env fs pod rt h p hpod hrt hfind hh hp
  intro o ho
  rw [hrun] at ho
  have hoe : o = successOutcome rd env fs h p := by
    exact (Except.ok.injEq _ _).mp ho.symm
  subst hoe
  refine ⟨successOutcome_ok rd env fs h p, ?_⟩
  rw [successOutcome_knownHosts, if_pos hscan]

theorem C5_trust_store_rotation_amended_witness :
    scanOK envH2 = true ∧
    (run2.ok = true ∧
      run2.fs.knownHosts =
        khRemove (brack (lit "h2") 32) (khRemove (lit "h2") fsRun1.knownHosts)
          ++ pyReplace envH2.scanOut (lit "h2" ++ lit " ")
              (brack (lit "h2") 32 ++ lit " ")) := by
  refine ⟨by decide, ?_⟩
  exact C5_trust_store_rotation_amended rdW pidW envH2 fsRun1
    ⟨some ⟨[⟨some 22, some (lit "h2"), some 32⟩]⟩⟩ ⟨[⟨some 22, some (lit "h2"), some 32⟩]⟩
    (lit "h2") 32 rfl rfl rfl (by decide) (by decide) (by decide) run2 rfl

/-- Environment whose key-scan fails (nonzero exit code, empty output). -/
def envScanFail : Env := ⟨some podW, 1, lit ""⟩

/-- C6 counterexample: when the key-scan fails, the run still returns
success (which is the true half of the claim) but prints only the
standard connect hint — the same line printed on a fully successful run —
so no warning surfaces the purge/scan failure, refuting the claim that
"such failures are surfaced as a warning". -/
theorem C6_best_effort_counterexample :
    scanOK envScanFail = false ∧
    (outcomeOf (setup_ssh_access rdW noFaults pidW envScanFail fsEmpty) fsEmpty).ok
      = true ∧
    (outcomeOf (setup_ssh_access rdW noFaults pidW envScanFail fsEmpty) fsEmpty).out
      = [lit "You can now connect with: ssh runpod"] := by decide

/-- C6 (amended): once the endpoint has resolved and steps 3-4 have run,
`setup_ssh_access` returns success for every exit status and output of
the known-hosts purge and key-scan tools; a failed scan is silent — the
only output is the connect hint, with no warning. -/
theorem C6_best_effort_amended (rd podId : Str) (env : Env) (fs : FS)
    (pod : Pod) (rt : PodRuntime) (h : Str) (p : Nat)
    (hpod : env.pod = some pod) (hrt : pod.runtime = some rt)
    (hfind : findSshPort rt.ports = (some h, some p)) (hh : h ≠ []) (hp : p ≠ 0) :
    ∀ o, setup_ssh_access rd noFaults podId env fs = Except.ok o →
      o.ok = true ∧ (scanOK env = false → o.out = [msgConnect]) := by
  have hrun := setup_spec rd podId env fs pod rt h p hpod hrt hfind hh hp
  intro o ho
  rw [hrun] at ho
  have hoe : o = successOutcome rd env fs h p := by
    exact (Except.ok.injEq _ _).mp ho.symm
  subst hoe
  refine ⟨successOutcome_ok rd env fs h p, ?_⟩
  intro hs
  rw [successOutcome_out, if_neg (by simp [hs])]

theorem C6_best_effort_amended_witness :
    envScanFail.pod = some podW ∧
    ((outcomeOf (setup_ssh_access rdW noFaults pidW envScanFail fsEmpty) fsEmpty).ok
        = true ∧
      (scanOK envScanFail = false →
        (outcomeOf (setup_ssh_access rdW noFaults pidW envScanFail fsEmpty)
          fsEmpty).out = [msgConnect])) := by
  refine ⟨rfl, ?_⟩
  exact C6_best_effort_amended rdW pidW envScanFail fsEmpty podW rtW
    (lit "1.2.3.4") 40001 rfl rfl rfl (by decide) (by decide)
    (outcomeOf (setup_ssh_access rdW noFaults pidW envScanFail fsEmpty) fsEmpty) rfl

/-- C7 counterexample: a failure of the initial `os.makedirs` calls
(source lines 41-42, which sit before the `try` of line 44) is not
caught: the exception escapes `setup_ssh_access` to its caller, refuting
the claim that no failure arising inside the function ever raises past
its boundary. -/
theorem C7_never_raises_counterexample :
    setup_ssh_access rdW ⟨true, false, false, false⟩ pidW envW fsEmpty
      = Except.error errMakedirs := rfl

/-- C7 (amended): every failure arising inside the `try` block (the API
call, the file writes, the tool invocations) is caught, reported with an
"Error setting up SSH:" message, and turned into a `False` return; only
an error in the two initial directory-creation calls, which run before
the handler is installed, can propagate to the caller. -/
theorem C7_never_raises_amended (rd : Str) (fl : Faults) (podId : Str)
    (env : Env) (fs : FS) (hm : fl.makedirs = false) :
    isOkE (setup_ssh_access rd fl podId env fs) = true ∧
    (fl.getPod = true →
      setup_ssh_access rd fl podId env fs =
        Except.ok (caughtOutcome fs [] errApi)) := by
  constructor
  · unfold setup_ssh_access
    rw [hm]
    simp only [Bool.false_eq_true, if_false]
    cases hg : fl.getPod with
    | true => rfl
    | false =>
      simp only [Bool.false_eq_true, if_false]
      cases env.pod with
      | none => rfl
      | some pod =>
        obtain ⟨rtOpt⟩ := pod
        cases rtOpt with
        | none => rfl
        | some rt =>
          dsimp only
          by_cases hc : (truthyStr (findSshPort rt.ports).1 &&
              truthyNat (findSshPort rt.ports).2) = true
          · rw [if_pos hc]
            by_cases hw : fl.writeCurrent = true
            · rw [if_pos hw]; rfl
            · rw [if_neg hw]
              by_cases hs : fl.scan = true
              · rw [if_pos hs]; rfl
              · rw [if_neg hs]; rfl
          · rw [if_neg hc]; rfl
  · intro hg
    simp [setup_ssh_access, hm, hg]

theorem C7_never_raises_amended_witness :
    (⟨false, true, false, false⟩ : Faults).makedirs = false ∧
    (isOkE (setup_ssh_access rdW ⟨false, true, false, false⟩ pidW envW fsEmpty)
        = true ∧
      ((⟨false, true, false, false⟩ : Faults).getPod = true →
        setup_ssh_access rdW ⟨false, true, false, false⟩ pidW envW fsEmpty =
          Except.ok (caughtOutcome fsEmpty [] errApi))) := by
  refine ⟨rfl, ?_⟩
  exact C7_never_raises_amended rdW ⟨false, true, false, false⟩ pidW envW fsEmpty rfl

theorem C10_substring_detection_witness :
    lit "Host runpod" <:+: confOld ∧
    (outcomeOf (setup_ssh_access rdW noFaults pidW envW fsOld) fsOld).fs.sshConfig
      = some (includeLine rdW ++ confOld) := by
  have happ := C10_substring_detection rdW pidW envW fsOld podW rtW
    (lit "1.2.3.4") 40001 confOld rfl rfl rfl (by decide) (by decide) rfl (by decide)
    (outcomeOf (setup_ssh_access rdW noFaults pidW envW fsOld) fsOld) rfl
  refine ⟨by decide, ?_⟩
  rw [happ]; decide

/-- C8: when `down` is given a target that is not a direct pod id and
that matches more than one pod, the command prints one candidate line
(id and name) for every match, exits with status 1, and terminates no
pod. -/
theorem C8_ambiguous_down (target : Str) (env : DownEnv)
    (hd : env.direct = none)
    (hm : 1 < (matchingPods target env.pods).length) :
    (cmd_down_target target env).exitCode = some 1 ∧
    (cmd_down_target target env).terminated = [] ∧
    ∀ p ∈ matchingPods target env.pods,
      msgCandidate p ∈ (cmd_down_target target env).out := by
  unfold cmd_down_target
  rw [hd]
  cases hms : matchingPods target env.pods with
  | nil => rw [hms] at hm; simp at hm
  | cons a tl =>
    cases tl with
    | nil => rw [hms] at hm; simp at hm
    | cons b tl2 =>
      refine ⟨rfl, rfl, ?_⟩
      intro p hp
      exact List.mem_cons_of_mem _
        (List.mem_append_left _ (List.mem_map_of_mem _ hp))

/-- Two distinct pods sharing the name `x`. -/
def dEnvW : DownEnv := ⟨none, [⟨lit "idA", lit "x"⟩, ⟨lit "idB", lit "x"⟩]⟩

theorem C8_ambiguous_down_witness :
    dEnvW.direct = none ∧
    1 < (matchingPods (lit "x") dEnvW.pods).length ∧
    ((cmd_down_target (lit "x") dEnvW).exitCode = some 1 ∧
      (cmd_down_target (lit "x") dEnvW).terminated = [] ∧
      ∀ p ∈ matchingPods (lit "x") dEnvW.pods,
        msgCandidate p ∈ (cmd_down_target (lit "x") dEnvW).out) := by
  exact ⟨rfl, by decide, C8_ambiguous_down (lit "x") dEnvW rfl (by decide)⟩

/-- Once `elapsed` has passed `maxW` the loop makes no further checks. -/
theorem pollLoop_checks_zero (check : Nat → Bool) (maxW intv fuel e : Nat)
    (hle : maxW ≤ e) : (pollLoop check maxW intv fuel e).checks = 0 := by
  cases fuel with
  | zero => rfl
  | succ n => simp [pollLoop, hle]

/-- Iteration bound for the polling loop: at most about
`(maxW - e) / intv` checks are ever made. -/
theorem pollLoop_checks_le (check : Nat → Bool) (maxW intv : Nat) :
    ∀ fuel e, intv * (pollLoop check maxW intv fuel e).checks
      ≤ (maxW - e) + (intv - 1) := by
  intro fuel
  induction fuel with
  | zero => intro e; simp [pollLoop]
  | succ n ih =>
    intro e
    by_cases hle : maxW ≤ e
    · simp [pollLoop, hle]
    · simp only [pollLoop]
      rw [if_neg hle]
      by_cases hc : check (e + intv) = true
      · rw [if_pos hc]
        dsimp only
        rw [Nat.mul_one]
        omega
      · rw [if_neg hc]
        dsimp only
        by_cases h2 : maxW ≤ e + intv
        · rw [pollLoop_checks_zero check maxW intv n (e + intv) h2]
          simp only [Nat.zero_add, Nat.mul_one]
          omega
        · have h1 := ih (e + intv)
          rw [Nat.mul_succ]
          generalize intv * (pollLoop check maxW intv n (e + intv)).checks = X at h1 ⊢
          omega

/-- If the loop did not reach its condition, the maximum wait elapsed
(given enough fuel, which the two instantiations below have). -/
theorem pollLoop_timeout (check : Nat → Bool) (maxW intv : Nat) :
    ∀ fuel e, maxW ≤ e + fuel * intv →
      (pollLoop check maxW intv fuel e).reached = false →
      maxW ≤ (pollLoop check maxW intv fuel e).elapsed := by
  intro fuel
  induction fuel with
  | zero => intro e hf _; simpa [pollLoop] using hf
  | succ n ih =>
    intro e hf hr
    by_cases hle : maxW ≤ e
    · simp only [pollLoop]
      rw [if_pos hle]
      exact hle
    · simp only [pollLoop] at hr ⊢
      rw [if_neg hle] at hr ⊢
      by_cases hc : check (e + intv) = true
      · rw [if_pos hc] at hr
        simp at hr
      · rw [if_neg hc] at hr ⊢
        dsimp only at hr ⊢
        apply ih (e + intv) ?_ hr
        rw [Nat.succ_mul] at hf
        omega

/-- C9: both post-operation polling loops check the status at a fixed
interval and stop after a bounded number of checks — at most 150 for the
create wait (300 s at 2 s) and at most 60 for the terminate wait (30 s at
0.5 s); the loop ends either with the target condition reached or with
the maximum wait elapsed, and on timeout the command reports the
operation as possibly still in progress and does not exit with a failure
status. -/
theorem C9_polling_bounded (check : Nat → Bool) :
    (upPoll check).checks ≤ 150 ∧
    ((upPoll check).reached = true ∨ 300 ≤ (upPoll check).elapsed) ∧
    ((upPoll check).reached = false →
      (cmd_up_wait check).out = [lit "Timeout", lit "Pod may still be starting"] ∧
      (cmd_up_wait check).exitCode = none) ∧
    (downPoll check).checks ≤ 60 ∧
    ((downPoll check).reached = true ∨ 60 ≤ (downPoll check).elapsed) ∧
    ((downPoll check).reached = false →
      (cmd_down_wait check).out =
        [lit "Timeout", lit "Pod may still be terminating"] ∧
      (cmd_down_wait check).exitCode = none) := by
  refine ⟨?_, ?_, ?_, ?_, ?_, ?_⟩
  · have h := pollLoop_checks_le check 300 2 300 0
    unfold upPoll
    omega
  · by_cases hr : (upPoll check).reached = true
    · exact Or.inl hr
    · right
      unfold upPoll at hr ⊢
      have hrf : (pollLoop check 300 2 300 0).reached = false := by
        cases hv : (pollLoop check 300 2 300 0).reached
        · rfl
        · exact absurd hv hr
      exact pollLoop_timeout check 300 2 300 0 (by norm_num) hrf
  · intro hr
    unfold cmd_up_wait
    rw [if_neg (by simp [hr])]
    exact ⟨rfl, rfl⟩
  · have h := pollLoop_checks_le check 60 1 60 0
    unfold downPoll
    omega
  · by_cases hr : (downPoll check).reached = true
    · exact Or.inl hr
    · right
      unfold downPoll at hr ⊢
      have hrf : (pollLoop check 60 1 60 0).reached = false := by
        cases hv : (pollLoop check 60 1 60 0).reached
        · rfl
        · exact absurd hv hr
      exact pollLoop_timeout check 60 1 60 0 (by norm_num) hrf
  · intro hr
    unfold cmd_down_wait
    rw [if_neg (by simp [hr])]
    exact ⟨rfl, rfl⟩

theorem C9_polling_bounded_witness :
    (upPoll (fun _ => false)).checks ≤ 150 ∧
    (cmd_up_wait (fun _ => false)).exitCode = none ∧
    (downPoll (fun _ => false)).checks ≤ 60 ∧
    (cmd_down_wait (fun _ => false)).exitCode = none := by
  have h := C9_polling_bounded (fun _ => false)
  exact ⟨h.1, (h.2.2.1 (by decide)).2, h.2.2.2.1, (h.2.2.2.2.2 (by decide)).2⟩

end RunpodCLI
